import Mathlib

/-!
Shallow embedding of the booking availability and conflict-resolution engine of
this repository: the `POST /` and `GET /availability` handlers of
`src/routes/booking.js`, the booking document of `src/models/Booking.js`, the
mailer of `src/email.js`, and the admin update route `POST /admin/bookings/:id`
of `src/server.js`.

Modelling conventions:
- An instant is an integer count of milliseconds since the Unix epoch, the
  value of `Date.prototype.getTime`.  The server's local wall clock is modelled
  as UTC (zero offset), i.e. a server running with `TZ=UTC`; `getHours`,
  `getMinutes`, `getDay`, and the year/month/day accessors are derived from the
  epoch value by the standard civil-calendar conversion.
- The Mongo collection is a list of booking documents; a document's `_id` is
  its position in the list.  `findOne(q)` is `List.any` of the query predicate,
  `create` appends, `updateOne({_id}, {$set})` is `List.set` at the position.
- Request fields are `Option`-valued: `none` models an absent field; for the
  start time an inner `Option` models whether `new Date(startAt)` produced a
  valid instant (`NaN` check).  JavaScript falsiness of `''` and `0` in the
  presence check is folded into the truthiness tests.
- `sendEmail` either returns normally (`Except.ok`) or rejects
  (`Except.error`), the latter when an SMTP transport is configured and the
  underlying `sendMail` fails; an unconfigured transport returns `ok false`.
-/

/-- Days since the epoch (1970-01-01), i.e. `floor (t / 86400000)`. -/
def epochDay (t : Int) : Int := t / 86400000

/-- JS `Date.prototype.getHours` under a UTC local clock. -/
def getHours (t : Int) : Int := (t / 3600000) % 24

/-- JS `Date.prototype.getMinutes` under a UTC local clock. -/
def getMinutes (t : Int) : Int := (t / 60000) % 60

/-- JS `Date.prototype.getDay` (0 = Sunday): 1970-01-01 was a Thursday. -/
def getDay (t : Int) : Int := (epochDay t + 4) % 7

/-- Civil (year, month, day) from days since the epoch, proleptic Gregorian
(the standard era-based conversion); month is 1–12 as in `getMonth() + 1`. -/
def civilFromDays (z0 : Int) : Int × Int × Int :=
  let z := z0 + 719468
  let era := z / 146097
  let doe := z % 146097
  let yoe := (doe - doe / 1460 + doe / 36524 - doe / 146096) / 365
  let y := yoe + era * 400
  let doy := doe - (365 * yoe + yoe / 4 - yoe / 100)
  let mp := (5 * doy + 2) / 153
  let d := doy - (153 * mp + 2) / 5 + 1
  let m := if mp < 10 then mp + 3 else mp - 9
  (if m ≤ 2 then y + 1 else y, m, d)

/-- Two-digit zero padding, as in `String(x).padStart(2, '0')`. -/
def pad2 (n : Int) : String :=
  if n < 10 then "0" ++ toString n else toString n

/-- `getDayKey` of src/routes/booking.js: the `YYYY-MM-DD` key of the civil day
holding `t`, in local (here UTC) time. -/
def getDayKey (t : Int) : String :=
  let c := civilFromDays (epochDay t)
  toString c.1 ++ "-" ++ pad2 c.2.1 ++ "-" ++ pad2 c.2.2

/-- The booking-engine configuration read from the environment at startup
(`BOOKING_START_HOUR`, `BOOKING_END_HOUR`, `BOOKING_BUFFER_MIN`,
`BOOKING_DAYS_AHEAD`, `BOOKING_ALLOW_WEEKENDS`, `BOOKING_BLACKOUT_DATES`). -/
structure BookingConfig where
  startHour : Int
  endHour : Int
  bufferMin : Int
  daysAhead : Int
  allowWeekends : Bool
  blackoutDates : List String
  deriving DecidableEq, Repr

/-- `isWithinHours` of src/routes/booking.js: wall-clock minutes of the start
must be at least `startHour * 60` and wall-clock minutes of the end at most
`endHour * 60`.  (The source compares only these two minute-of-day values.) -/
def isWithinHours (cfg : BookingConfig) (start finish : Int) : Bool :=
  let startMinutes := getHours start * 60 + getMinutes start
  let endMinutes := getHours finish * 60 + getMinutes finish
  let openMinutes := cfg.startHour * 60
  let closeMinutes := cfg.endHour * 60
  decide (startMinutes ≥ openMinutes) && decide (endMinutes ≤ closeMinutes)

/-- `isWeekend` of src/routes/booking.js. -/
def isWeekend (t : Int) : Bool :=
  getDay t == 0 || getDay t == 6

/-- `ALLOWED_DURATIONS` of src/routes/booking.js. -/
def allowedDurations : List Int := [15, 30, 45, 60]

/-- `ALLOWED_SERVICES` of src/routes/booking.js. -/
def allowedServices : List String :=
  ["UI/UX", "MERN", "Java Full Stack", "Python", "Client Meeting"]

/-- Workflow status of a booking document (`src/models/Booking.js`). -/
inductive WorkStatus where
  | newB
  | inProgress
  | doneB
  deriving DecidableEq, Repr

/-- Payment status of a booking document (`src/models/Booking.js`). -/
inductive PayStatus where
  | unpaid
  | paid
  deriving DecidableEq, Repr

/-- A stored booking document (`src/models/Booking.js`); `_id` is the
document's position in the store list. -/
structure Booking where
  name : String
  email : String
  phone : String
  service : String
  durationMinutes : Int
  startAt : Int
  endAt : Int
  notes : String
  status : WorkStatus
  adminNote : String
  paymentStatus : PayStatus
  deriving DecidableEq, Repr

/-- Characters matched by the regex class `\s` (ASCII part, as relevant). -/
def isJsSpace (c : Char) : Bool :=
  c == ' ' || c == '\t' || c == '\n' || c == '\r' || c == '\x0b' || c == '\x0c'

/-- Membership in the language of `/^[^\s@]+@[^\s@]+\.[^\s@]+$/`: no whitespace,
exactly one `@` (none of the three parts may contain one), and a literal `.`
strictly between the `@` and the end leaving both middle and last part
non-empty.  Dots may occur freely inside any part. -/
def emailRegexTest (s : String) : Bool :=
  let l := s.data
  let n := l.length
  l.all (fun c => !isJsSpace c) &&
  (l.countP (fun c => c == '@') == 1) &&
  ((List.range n).any fun i =>
    (l.get? i == some '@') && decide (1 ≤ i) &&
    ((List.range n).any fun j =>
      (l.get? j == some '.') && decide (i + 2 ≤ j) && decide (j + 2 ≤ n)))

/-- Drop leading whitespace characters. -/
def dropLeadingWs : List Char → List Char
  | [] => []
  | c :: rest => if isJsSpace c then dropLeadingWs rest else c :: rest

/-- JS `String.prototype.trim`: strip whitespace from both ends. -/
def jsTrim (s : String) : String :=
  ⟨(dropLeadingWs (dropLeadingWs s.data).reverse).reverse⟩

/-- Membership in the language of `/^[0-9+()\-\s]{7,}$/`. -/
def phoneRegexTest (s : String) : Bool :=
  decide (7 ≤ s.length) &&
  s.data.all (fun c => c.isDigit || c == '+' || c == '(' || c == ')' || c == '-' || isJsSpace c)

/-- The body of `POST /` as received: `none` is an absent field; for `startAt`
the inner `Option` is the result of `new Date(startAt)` (`none` = `NaN`). -/
structure BookingRequest where
  name : Option String
  email : Option String
  phone : Option String
  service : Option String
  durationMinutes : Option Int
  startAt : Option (Option Int)
  notes : Option String
  deriving DecidableEq, Repr

/-- JS truthiness of a possibly absent string (`!x` fails for `''`). -/
def truthyStr : Option String → Bool
  | none => false
  | some s => !(s == "")

/-- JS truthiness of a possibly absent number (`!x` fails for `0`). -/
def truthyNum : Option Int → Bool
  | none => false
  | some n => !(n == 0)

/-- JS truthiness of the raw `startAt` field (present and non-empty). -/
def presentStart : Option (Option Int) → Bool
  | none => false
  | some _ => true

/-- Outcome of `POST /`: 400 with a message, 409, 201 with the new id, or the
catch-all 500. -/
inductive SubmitResult where
  | badRequest (msg : String)
  | conflict
  | created (id : Nat)
  | serverError
  deriving DecidableEq, Repr

/-- The mailer environment: whether SMTP is configured (`SMTP_HOST/USER/PASS`),
whether the transport's `sendMail` rejects, and `NOTIFY_EMAIL`. -/
structure EmailEnv where
  smtpConfigured : Bool
  sendFails : Bool
  notifyEmail : Option String
  deriving DecidableEq, Repr

/-- `sendEmail` of src/email.js: with no configured transport it returns
`false`; otherwise it resolves `true`, or rejects when `sendMail` fails. -/
def sendEmail (env : EmailEnv) : Except Unit Bool :=
  if !env.smtpConfigured then .ok false
  else if env.sendFails then .error () else .ok true

/-- The conflict query `{ startAt: { $lt: endBuffered }, endAt: { $gt:
startBuffered } }` of src/routes/booking.js as a predicate on one document. -/
def overlapsBufferedProbe (startBuffered endBuffered : Int) (b : Booking) : Bool :=
  decide (b.startAt < endBuffered) && decide (b.endAt > startBuffered)

/-- The conflict check of src/routes/booking.js lines 141–148: buffer the
candidate `[candStart, candStart + dur min)` by `bufMin` minutes on both sides
and probe the store for any intersecting stored interval. -/
def conflictAgainst (bufMin candStart candDur : Int) (store : List Booking) : Bool :=
  let bufferMs := bufMin * 60 * 1000
  store.any (overlapsBufferedProbe (candStart - bufferMs) (candStart + candDur * 60 * 1000 + bufferMs))

/-- The field-validation prefix of the `POST /` handler (src/routes/booking.js
lines 85–118): required-field presence, allowed duration, allowed service,
email format, phone format, in source order; returns the numeric duration. -/
def validateFields (req : BookingRequest) : Except SubmitResult Int :=
  if !(truthyStr req.name && truthyStr req.email && truthyStr req.phone &&
       truthyStr req.service && truthyNum req.durationMinutes && presentStart req.startAt) then
    .error (.badRequest "All required fields must be filled.")
  else
    let duration := req.durationMinutes.getD 0
    if !(allowedDurations.contains duration) then
      .error (.badRequest "Invalid duration.")
    else if !(allowedServices.contains (req.service.getD "")) then
      .error (.badRequest "Invalid service.")
    else if !(emailRegexTest (jsTrim (req.email.getD ""))) then
      .error (.badRequest "Invalid email address.")
    else if !(phoneRegexTest (jsTrim (req.phone.getD ""))) then
      .error (.badRequest "Invalid phone number.")
    else .ok duration

/-- The start-time and policy segment of the `POST /` handler
(src/routes/booking.js lines 120–139): start validity, past time, horizon,
weekend, business hours, blackout date, in source order; returns the start. -/
def validateTiming (cfg : BookingConfig) (now duration : Int)
    (startField : Option (Option Int)) : Except SubmitResult Int :=
  match startField.getD none with
  | none => .error (.badRequest "Invalid start time.")
  | some start =>
    if decide (start ≤ now) then
      .error (.badRequest "Please choose a future time.")
    else if decide (start > now + cfg.daysAhead * (24 * 60 * 60 * 1000)) then
      .error (.badRequest "Selected date is too far in the future.")
    else if !cfg.allowWeekends && isWeekend start then
      .error (.badRequest "Weekends are not available.")
    else if !(isWithinHours cfg start (start + duration * 60 * 1000)) then
      .error (.badRequest "Selected time is outside business hours.")
    else if cfg.blackoutDates.contains (getDayKey start) then
      .error (.badRequest "Selected date is not available.")
    else .ok start

/-- The `POST /` handler of src/routes/booking.js from the top through the
conflict query — everything before the insert, strung together in source
order.  `Except.error` is the early response; `Except.ok` is the document the
handler will insert. -/
def preInsertCheck (cfg : BookingConfig) (now : Int) (req : BookingRequest)
    (store : List Booking) : Except SubmitResult Booking :=
  match validateFields req with
  | .error r => .error r
  | .ok duration =>
    match validateTiming cfg now duration req.startAt with
    | .error r => .error r
    | .ok start =>
      let finish := start + duration * 60 * 1000
      let bufferMs := cfg.bufferMin * 60 * 1000
      let startBuffered := start - bufferMs
      let endBuffered := finish + bufferMs
      if store.any (overlapsBufferedProbe startBuffered endBuffered) then
        .error .conflict
      else
        .ok { name := req.name.getD "", email := jsTrim (req.email.getD ""),
              phone := jsTrim (req.phone.getD ""), service := req.service.getD "",
              durationMinutes := duration, startAt := start, endAt := finish,
              notes := req.notes.getD "", status := .newB, adminNote := "",
              paymentStatus := .unpaid }

/-- The full `POST /` handler: on a passing pre-insert check the document is
appended (its id is its position), then the operator notification (only when
`NOTIFY_EMAIL` is set) and the requester confirmation are awaited in turn;
a rejection from either lands in the route's catch-all, which answers 500 —
the already-persisted document is not removed. -/
def submit (cfg : BookingConfig) (env : EmailEnv) (now : Int) (req : BookingRequest)
    (store : List Booking) : SubmitResult × List Booking :=
  match preInsertCheck cfg now req store with
  | .error r => (r, store)
  | .ok bk =>
    let store2 := store ++ [bk]
    let operatorMail : Except Unit Bool :=
      match env.notifyEmail with
      | some _ => sendEmail env
      | none => .ok false
    match operatorMail with
    | .error _ => (.serverError, store2)
    | .ok _ =>
      match sendEmail env with
      | .error _ => (.serverError, store2)
      | .ok _ => (.created store.length, store2)

/-- `POST /admin/bookings/:id` of src/server.js: `updateOne({_id}, {$set:
{status, adminNote, paymentStatus}})` — only those three fields change. -/
def adminUpdateBooking (store : List Booking) (id : Nat) (status : WorkStatus)
    (adminNote : String) (paymentStatus : PayStatus) : List Booking :=
  match store.get? id with
  | none => store
  | some b =>
    store.set id { b with status := status, adminNote := adminNote, paymentStatus := paymentStatus }

/-- Outcome of `GET /availability`: 400 with a message, or the list of
`(startAt, endAt)` pairs of the matching documents. -/
inductive AvailabilityResult where
  | badRequest (msg : String)
  | ok (bookings : List (Int × Int))
  deriving DecidableEq, Repr

/-- The `GET /availability` handler of src/routes/booking.js.  The query
parameters are modelled after parsing: the outer `Option` is presence
(`!from || !to`), the inner `Option` is whether `new Date(...)` produced a
valid instant.  The store is read only on the fully-valid path, through
`select('startAt endAt')`. -/
def availability (fromQ toQ : Option (Option Int)) (store : List Booking) :
    AvailabilityResult :=
  match fromQ, toQ with
  | some fp, some tp =>
    match fp, tp with
    | some rangeStart, some rangeEnd =>
      .ok ((store.filter
              (fun b => decide (b.startAt < rangeEnd) && decide (b.endAt > rangeStart))).map
            (fun b => (b.startAt, b.endAt)))
    | _, _ => .badRequest "Invalid date range."
  | _, _ => .badRequest "from and to are required."

/-- The availability-policy checks embedded in the `POST /` handler
(src/routes/booking.js lines 92–152), in source order, restricted to the policy
rules (the email- and phone-format checks interleaved there are field
validation, not policy): duration, service, start validity, past time,
horizon, weekend, business hours, blackout date. -/
inductive PolicyReason where
  | invalidDuration
  | invalidService
  | invalidStart
  | pastTime
  | tooFarAhead
  | weekendUnavailable
  | outsideHours
  | blackoutDate
  deriving DecidableEq, Repr

/-- Accept, or reject with the distinct reason of one rule. -/
inductive PolicyResult where
  | accepted
  | rejected (r : PolicyReason)
  deriving DecidableEq, Repr

/-- The policy rule chain exactly as the handler runs it: each check
short-circuits with its reason. -/
def evaluatePolicy (cfg : BookingConfig) (now durationMinutes : Int) (service : String)
    (start : Option Int) : PolicyResult :=
  if !(allowedDurations.contains durationMinutes) then .rejected .invalidDuration
  else if !(allowedServices.contains service) then .rejected .invalidService
  else
    match start with
    | none => .rejected .invalidStart
    | some s =>
      if decide (s ≤ now) then .rejected .pastTime
      else if decide (s > now + cfg.daysAhead * (24 * 60 * 60 * 1000)) then .rejected .tooFarAhead
      else if !cfg.allowWeekends && isWeekend s then .rejected .weekendUnavailable
      else if !(isWithinHours cfg s (s + durationMinutes * 60 * 1000)) then .rejected .outsideHours
      else if cfg.blackoutDates.contains (getDayKey s) then .rejected .blackoutDate
      else .accepted

/-- Modelled from the spec's words (§4.2): whether one policy rule, taken by
itself, is violated by the candidate; rules that presuppose a valid start are
vacuously satisfied when the start is invalid. -/
def ruleViolated (cfg : BookingConfig) (now durationMinutes : Int) (service : String)
    (start : Option Int) : PolicyReason → Bool
  | .invalidDuration => !(allowedDurations.contains durationMinutes)
  | .invalidService => !(allowedServices.contains service)
  | .invalidStart => start.isNone
  | .pastTime =>
    match start with
    | none => false
    | some s => decide (s ≤ now)
  | .tooFarAhead =>
    match start with
    | none => false
    | some s => decide (s > now + cfg.daysAhead * (24 * 60 * 60 * 1000))
  | .weekendUnavailable =>
    match start with
    | none => false
    | some s => !cfg.allowWeekends && isWeekend s
  | .outsideHours =>
    match start with
    | none => false
    | some s => !(isWithinHours cfg s (s + durationMinutes * 60 * 1000))
  | .blackoutDate =>
    match start with
    | none => false
    | some s => cfg.blackoutDates.contains (getDayKey s)

/-- The fixed rule order stated by the spec (§4.2). -/
def policyRuleOrder : List PolicyReason :=
  [.invalidDuration, .invalidService, .invalidStart, .pastTime, .tooFarAhead,
   .weekendUnavailable, .outsideHours, .blackoutDate]

/-- Modelled from the spec's words (§4.2): report exactly the first violated
rule of the fixed order, or accept when none is violated. -/
def firstViolatedPolicy (cfg : BookingConfig) (now durationMinutes : Int) (service : String)
    (start : Option Int) : PolicyResult :=
  match policyRuleOrder.find? (ruleViolated cfg now durationMinutes service start) with
  | none => .accepted
  | some r => .rejected r

/-- Modelled from the spec's words (§4.1): the overlap test with BOTH intervals
padded by the buffer, `start-buffer < other.end+buffer AND end+buffer >
other.start-buffer` — i.e. `[start-buffer, end+buffer)` meets
`[otherStart-buffer, otherEnd+buffer)`. -/
def specPadBothOverlap (bufferMs start finish otherStart otherFinish : Int) : Bool :=
  decide (start - bufferMs < otherFinish + bufferMs) &&
  decide (finish + bufferMs > otherStart - bufferMs)

/-- Modelled from the spec's words (§4.2 rule 7): both `start` and
`end = start + duration` fall within the half-open daily window
`[startHour:00, endHour:00)` on the same calendar day — the slot `[start, end)`
is contained in the business window of the start's civil day. -/
def specWithinWindow (cfg : BookingConfig) (start finish : Int) : Bool :=
  (epochDay start == epochDay finish) &&
  decide (cfg.startHour * 60 ≤ getHours start * 60 + getMinutes start) &&
  decide (getHours finish * 60 + getMinutes finish ≤ cfg.endHour * 60)

/-- Two stored intervals stay at least the buffer apart
(equivalently: `[a.start, a.end + buffer)` and `[b.start, b.end + buffer)` are
disjoint). -/
def bufferSeparated (bufferMs : Int) (a b : Booking) : Prop :=
  a.endAt + bufferMs ≤ b.startAt ∨ b.endAt + bufferMs ≤ a.startAt

/-- The per-booking interval invariant of the data model: the stored end is the
stored start plus the stored duration in milliseconds, and the duration is one
of the allowed values. -/
def intervalInvariant (b : Booking) : Prop :=
  b.endAt = b.startAt + b.durationMinutes * 60 * 1000
  ∧ allowedDurations.contains b.durationMinutes = true

/-- Progress of one request-handling task through the `POST /` handler: before
its conflict query; past a passing conflict query with its insert pending (the
suspension point between the awaited `findOne` and the awaited `create`); or
finished with a response. -/
inductive TaskPhase where
  | ready
  | willInsert (bk : Booking)
  | finished (r : SubmitResult)
  deriving DecidableEq, Repr

/-- The shared store plus the per-task continuations of a set of concurrent
submissions. -/
structure RaceState where
  store : List Booking
  tasks : List (BookingRequest × TaskPhase)
  deriving DecidableEq, Repr

/-- One scheduler step: task `i` runs to its next suspension point.  A ready
task executes everything up to and including its conflict query against the
store as it is NOW; a task whose query found no conflict performs its insert. -/
def raceStep (cfg : BookingConfig) (now : Int) (st : RaceState) (i : Nat) : RaceState :=
  match st.tasks.get? i with
  | none => st
  | some (req, ph) =>
    match ph with
    | .ready =>
      match preInsertCheck cfg now req st.store with
      | .error r => { st with tasks := st.tasks.set i (req, .finished r) }
      | .ok bk => { st with tasks := st.tasks.set i (req, .willInsert bk) }
    | .willInsert bk =>
      { store := st.store ++ [bk],
        tasks := st.tasks.set i (req, .finished (.created st.store.length)) }
    | .finished _ => st

/-- Run a schedule (a list of task indices, each entry one step of that task)
against an initial state. -/
def runSchedule (cfg : BookingConfig) (now : Int) (init : RaceState)
    (sched : List Nat) : RaceState :=
  sched.foldl (raceStep cfg now) init

/-- The default configuration of src/routes/booking.js (environment unset). -/
def cfgDefault : BookingConfig :=
  { startHour := 10, endHour := 18, bufferMin := 15, daysAhead := 14,
    allowWeekends := false, blackoutDates := [] }

/-- The configuration of the spec's business-hours example (`startHour=9,
endHour=18`). -/
def cfgNine : BookingConfig :=
  { startHour := 9, endHour := 18, bufferMin := 15, daysAhead := 14,
    allowWeekends := false, blackoutDates := [] }

/-- Mailer with no SMTP transport configured: both sends are no-ops. -/
def envNoSmtp : EmailEnv :=
  { smtpConfigured := false, sendFails := false, notifyEmail := none }

/-- Mailer with a configured transport whose `sendMail` rejects. -/
def envSendRejects : EmailEnv :=
  { smtpConfigured := true, sendFails := true, notifyEmail := none }

/-- 2026-10-14 (a Wednesday) 08:00 UTC, in epoch milliseconds. -/
def wedMorning : Int := 1791964800000

/-- 2026-10-14 10:00 UTC. -/
def wedTen : Int := 1791972000000

/-- A well-formed booking request for 2026-10-14 10:00 UTC, 30 minutes. -/
def reqTen : BookingRequest :=
  { name := some "Ann", email := some "a@b.c", phone := some "1234567",
    service := some "MERN", durationMinutes := some 30,
    startAt := some (some wedTen), notes := none }

/-- A well-formed booking request for 2026-10-14 10:45 UTC, 30 minutes —
starting exactly the 15-minute buffer after `reqTen`'s 10:30 end. -/
def reqTenFortyFive : BookingRequest :=
  { name := some "Bob", email := some "b@c.d", phone := some "7654321",
    service := some "Python", durationMinutes := some 30,
    startAt := some (some (wedTen + 45 * 60000)), notes := none }

/-- The document `POST /` persists for `reqTen` on an empty store. -/
def bookingTen : Booking :=
  { name := "Ann", email := "a@b.c", phone := "1234567", service := "MERN",
    durationMinutes := 30, startAt := wedTen, endAt := wedTen + 30 * 60000,
    notes := "", status := .newB, adminNote := "", paymentStatus := .unpaid }

/-- Initial race state: two identical well-formed submissions for the same
slot, neither yet past its conflict query, over an empty store. -/
def raceInit : RaceState :=
  { store := [], tasks := [(reqTen, .ready), (reqTen, .ready)] }

/-- 2026-10-14 23:30 UTC: a start whose 60-minute slot wraps past midnight. -/
def wedLateNight : Int := 1792020600000

/-- 2026-10-14 17:30 UTC. -/
def wedSeventeenThirty : Int := 1791999000000

/-- 2026-10-14 17:00 UTC. -/
def wedSeventeen : Int := 1791997200000

/-- A stored booking as `reqTen` would create it, with notes and administrative
fields filled in one way. -/
def storedAnn : Booking :=
  { name := "Ann", email := "a@b.c", phone := "1234567", service := "MERN",
    durationMinutes := 30, startAt := wedTen, endAt := wedTen + 30 * 60000,
    notes := "first contact", status := .newB, adminNote := "", paymentStatus := .unpaid }

/-- A stored booking with the same interval, duration and service as
`storedAnn` but different requester-identifying and administrative fields. -/
def storedBob : Booking :=
  { name := "Bob", email := "b@c.d", phone := "7654321", service := "MERN",
    durationMinutes := 30, startAt := wedTen, endAt := wedTen + 30 * 60000,
    notes := "call back", status := .doneB, adminNote := "verified", paymentStatus := .paid }

set_option maxRecDepth 10000

theorem validateFields_ok_inv (req : BookingRequest) (d : Int)
    (h : validateFields req = .ok d) : allowedDurations.contains d = true := by
  simp only [validateFields] at h
  repeat' split at h
  any_goals exact Except.noConfusion h
  injection h with h
  subst h
  simp_all

theorem preInsertCheck_ok_inv (cfg : BookingConfig) (now : Int) (req : BookingRequest)
    (store : List Booking) (bk : Booking)
    (h : preInsertCheck cfg now req store = .ok bk) :
    bk.endAt = bk.startAt + bk.durationMinutes * 60 * 1000
    ∧ allowedDurations.contains bk.durationMinutes = true
    ∧ store.any (overlapsBufferedProbe (bk.startAt - cfg.bufferMin * 60 * 1000)
          (bk.endAt + cfg.bufferMin * 60 * 1000)) = false := by
  simp only [preInsertCheck] at h
  repeat' split at h
  any_goals exact Except.noConfusion h
  injection h with h
  subst h
  rename_i xf d hvf xt s htm hconf
  refine ⟨rfl, ?_, ?_⟩
  · exact validateFields_ok_inv req d hvf
  · simpa using hconf

theorem submit_snd_error (cfg : BookingConfig) (env : EmailEnv) (now : Int)
    (req : BookingRequest) (store : List Booking) (r : SubmitResult)
    (hpc : preInsertCheck cfg now req store = .error r) :
    (submit cfg env now req store).2 = store := by
  unfold submit
  rw [hpc]

theorem submit_snd_ok (cfg : BookingConfig) (env : EmailEnv) (now : Int)
    (req : BookingRequest) (store : List Booking) (bk : Booking)
    (hpc : preInsertCheck cfg now req store = .ok bk) :
    (submit cfg env now req store).2 = store ++ [bk] := by
  unfold submit
  rw [hpc]
  cases henv : env.notifyEmail <;> cases hmail : sendEmail env <;> rfl

theorem any_set_same (l : List Booking) (n : Nat) (b b2 : Booking) (p : Booking → Bool)
    (hget : l.get? n = some b) (hp : p b2 = p b) : (l.set n b2).any p = l.any p := by
  induction l generalizing n with
  | nil => exact absurd hget (by simp)
  | cons hd tl ih =>
    cases n with
    | zero =>
      simp only [List.get?] at hget
      injection hget with hget
      subst hget
      simp [List.set, hp]
    | succ m =>
      simp only [List.set, List.any_cons]
      rw [ih m (by simpa using hget)]

theorem adminUpdate_any (store : List Booking) (id : Nat) (st : WorkStatus) (note : String)
    (ps : PayStatus) (sb eb : Int) :
    (adminUpdateBooking store id st note ps).any (overlapsBufferedProbe sb eb)
      = store.any (overlapsBufferedProbe sb eb) := by
  unfold adminUpdateBooking
  split
  · rfl
  · rename_i b hget
    exact any_set_same store id b _ _ hget rfl

theorem filterMap_intervals_eq (rs re : Int) (s1 s2 : List Booking)
    (h : List.Forall₂ (fun a b => a.startAt = b.startAt ∧ a.endAt = b.endAt) s1 s2) :
    (s1.filter (fun b => decide (b.startAt < re) && decide (b.endAt > rs))).map
        (fun b => (b.startAt, b.endAt))
      = (s2.filter (fun b => decide (b.startAt < re) && decide (b.endAt > rs))).map
        (fun b => (b.startAt, b.endAt)) := by
  induction h with
  | nil => rfl
  | cons hab htl ih =>
    rename_i a b l1 l2
    obtain ⟨h1, h2⟩ := hab
    simp only [List.filter_cons, h1, h2]
    split
    · simp only [List.map_cons, ih, h1, h2]
    · exact ih

/-- C1: the claim says that for concurrent submissions with intersecting
buffered intervals at most one is persisted — the check-then-insert sequence
would be atomic.  The handler has no such atomicity: under the interleaving in
which both submissions run their conflict query before either insert (the
query and the insert are separate awaited operations), both are persisted and
both callers receive 201, leaving two stored bookings for the same slot whose
buffered intervals overlap — the resulting store itself now fails the conflict
probe for that slot.  A serialized schedule of the same two submissions yields
one success and one 409, confirming the divergence is caused purely by the
interleaving. -/
theorem booking_race_admits_double_insert :
    (runSchedule cfgDefault wedMorning raceInit [0, 1, 0, 1]).tasks.map (fun t => t.2)
      = [.finished (.created 0), .finished (.created 1)]
    ∧ (runSchedule cfgDefault wedMorning raceInit [0, 1, 0, 1]).store.map
        (fun b => (b.startAt, b.endAt))
      = [(wedTen, wedTen + 30 * 60000), (wedTen, wedTen + 30 * 60000)]
    ∧ conflictAgainst cfgDefault.bufferMin wedTen 30
        (runSchedule cfgDefault wedMorning raceInit [0, 1, 0, 1]).store = true
    ∧ (runSchedule cfgDefault wedMorning raceInit [0, 0, 1, 1]).tasks.map (fun t => t.2)
      = [.finished (.created 0), .finished .conflict] := by
  decide

/-- C2 counterexample: the conflict test is NOT the both-sides-padded predicate
the claim states, and two stored bookings CAN have overlapping double-padded
intervals.  Starting from an empty store the service itself persists `reqTen`
(10:00–10:30) and then accepts `reqTenFortyFive` (10:45–11:15, exactly the
15-minute buffer after the first booking's end): the code's probe finds no
conflict, yet the claim's pad-both predicate evaluates true on the two stored
intervals, i.e. `[A.start - buffer, A.end + buffer)` and
`[B.start - buffer, B.end + buffer)` overlap. -/
theorem stored_padBoth_intervals_overlap_cex :
    submit cfgDefault envNoSmtp wedMorning reqTen [] = (.created 0, [bookingTen])
    ∧ (submit cfgDefault envNoSmtp wedMorning reqTenFortyFive [bookingTen]).1 = .created 1
    ∧ ((submit cfgDefault envNoSmtp wedMorning reqTenFortyFive [bookingTen]).2.map
        (fun b => (b.startAt, b.endAt)))
      = [(wedTen, wedTen + 30 * 60000), (wedTen + 45 * 60000, wedTen + 75 * 60000)]
    ∧ conflictAgainst cfgDefault.bufferMin (wedTen + 45 * 60000) 30 [bookingTen] = false
    ∧ specPadBothOverlap (cfgDefault.bufferMin * 60 * 1000) (wedTen + 45 * 60000)
        (wedTen + 75 * 60000) bookingTen.startAt bookingTen.endAt = true := by
  decide

/-- C2 as amended: the conflict query pads only the candidate interval by the
buffer (`stored.start < candidate.end + buffer AND stored.end >
candidate.start - buffer`), so the invariant the service maintains is that any
two stored bookings are separated by at least the buffer — equivalently,
`[A.start, A.end + buffer)` and `[B.start, B.end + buffer)` never overlap
(not the both-sides-padded version): every (sequential) submission preserves
pairwise buffer-separation of the store. -/
theorem submit_preserves_buffer_separation (cfg : BookingConfig) (env : EmailEnv)
    (now : Int) (req : BookingRequest) (store : List Booking)
    (h : store.Pairwise (bufferSeparated (cfg.bufferMin * 60 * 1000))) :
    ((submit cfg env now req store).2).Pairwise
      (bufferSeparated (cfg.bufferMin * 60 * 1000)) := by
  cases hpc : preInsertCheck cfg now req store with
  | error r => rw [submit_snd_error cfg env now req store r hpc]; exact h
  | ok bk =>
    rw [submit_snd_ok cfg env now req store bk hpc]
    obtain ⟨hend, hdur, hany⟩ := preInsertCheck_ok_inv cfg now req store bk hpc
    rw [List.pairwise_append]
    refine ⟨h, by simp, ?_⟩
    intro a ha b hb
    simp only [List.mem_singleton] at hb
    subst hb
    have hfa := List.any_eq_false.mp hany a ha
    simp only [overlapsBufferedProbe, Bool.and_eq_true, decide_eq_true_eq, not_and, not_lt,
      gt_iff_lt] at hfa
    unfold bufferSeparated
    omega

/-- Witness for the amended C2 theorem at a concrete input. -/
theorem submit_preserves_buffer_separation_witness :
    ((submit cfgDefault envNoSmtp wedMorning reqTenFortyFive [bookingTen]).2).Pairwise
      (bufferSeparated (cfgDefault.bufferMin * 60 * 1000)) :=
  submit_preserves_buffer_separation cfgDefault envNoSmtp wedMorning reqTenFortyFive
    [bookingTen] (by simp)

/-- C3: against any stored booking with a well-formed interval, a candidate
slot starting exactly `bufferMinutes` after that booking's end passes the
conflict check, while one starting `bufferMinutes - 1` minutes after that end
is reported as conflicting (strict inequalities, half-open semantics). -/
theorem buffer_boundary_accept_reject (bufMin dur : Int) (b : Booking)
    (hb : b.startAt < b.endAt) (hbuf : 1 ≤ bufMin) (hdur : 0 < dur) :
    conflictAgainst bufMin (b.endAt + bufMin * 60 * 1000) dur [b] = false
    ∧ conflictAgainst bufMin (b.endAt + (bufMin - 1) * 60 * 1000) dur [b] = true := by
  unfold conflictAgainst overlapsBufferedProbe
  constructor
  · simp only [List.any_cons, List.any_nil, Bool.or_false, Bool.and_eq_false_iff,
      decide_eq_false_iff_not, not_lt, gt_iff_lt]
    omega
  · simp only [List.any_cons, List.any_nil, Bool.or_false, Bool.and_eq_true,
      decide_eq_true_eq, gt_iff_lt]
    omega

/-- Witness for C3 at the default 15-minute buffer and a 30-minute slot. -/
theorem buffer_boundary_accept_reject_witness :
    conflictAgainst 15 (bookingTen.endAt + 15 * 60 * 1000) 30 [bookingTen] = false
    ∧ conflictAgainst 15 (bookingTen.endAt + (15 - 1) * 60 * 1000) 30 [bookingTen] = true :=
  buffer_boundary_accept_reject 15 30 bookingTen (by decide) (by decide) (by decide)

/-- C4: the claim says a notification failure after the insert is never
propagated and the caller still receives the 201 success with the new id.  In
the code the awaited `sendEmail` calls sit inside the route's try/catch: when
the configured transport's `sendMail` rejects, the already-persisted booking is
indeed kept (no rollback), but the catch-all answers 500 `Server error` — the
caller does not receive the success result.  The same submission with no
failing mailer returns 201, isolating the notification failure as the cause. -/
theorem notification_failure_yields_500_booking_kept :
    submit cfgDefault envSendRejects wedMorning reqTen [] = (.serverError, [bookingTen])
    ∧ submit cfgDefault envNoSmtp wedMorning reqTen [] = (.created 0, [bookingTen]) := by
  decide

/-- C5: a submission that passes field validation and the availability policy
but whose buffered probe window overlaps some stored booking is answered with
the distinct 409 conflict result, and the store is returned unchanged — nothing
is inserted. -/
theorem conflict_submission_rejected_store_unchanged (cfg : BookingConfig) (env : EmailEnv)
    (now : Int) (req : BookingRequest) (store : List Booking) (d s : Int)
    (hvf : validateFields req = .ok d)
    (hvt : validateTiming cfg now d req.startAt = .ok s)
    (hconf : store.any (overlapsBufferedProbe (s - cfg.bufferMin * 60 * 1000)
        (s + d * 60 * 1000 + cfg.bufferMin * 60 * 1000)) = true) :
    submit cfg env now req store = (.conflict, store) := by
  unfold submit preInsertCheck
  simp only [hvf, hvt, hconf, if_true]

/-- Witness for C5: resubmitting the exact slot of an already stored booking
is answered 409 and leaves the store as it was. -/
theorem conflict_submission_rejected_store_unchanged_witness :
    submit cfgDefault envNoSmtp wedMorning reqTen [bookingTen] = (.conflict, [bookingTen]) :=
  conflict_submission_rejected_store_unchanged cfgDefault envNoSmtp wedMorning reqTen
    [bookingTen] 30 wedTen rfl rfl (by decide)

/-- C6: the policy checks of the handler run in the fixed source order
duration, service, start validity, past time, horizon, weekend, business
hours, blackout date, and a candidate violating several rules is reported with
exactly the first violated rule's reason: the handler's short-circuit chain
equals the find-first-violated-rule function built from the spec's rule
list. -/
theorem policy_reports_first_violated_rule (cfg : BookingConfig)
    (now durationMinutes : Int) (service : String) (start : Option Int) :
    evaluatePolicy cfg now durationMinutes service start
      = firstViolatedPolicy cfg now durationMinutes service start := by
  unfold evaluatePolicy firstViolatedPolicy policyRuleOrder
  cases start with
  | none =>
    simp only [List.find?, ruleViolated, Option.isNone]
    cases (!(allowedDurations.contains durationMinutes)) <;>
      cases (!(allowedServices.contains service)) <;> rfl
  | some s =>
    simp only [List.find?, ruleViolated, Option.isNone]
    cases (!(allowedDurations.contains durationMinutes)) <;>
      cases (!(allowedServices.contains service)) <;>
      cases (decide (s ≤ now)) <;>
      cases (decide (s > now + cfg.daysAhead * (24 * 60 * 60 * 1000))) <;>
      cases (!cfg.allowWeekends && isWeekend s) <;>
      cases (!(isWithinHours cfg s (s + durationMinutes * 60 * 1000))) <;>
      cases (cfg.blackoutDates.contains (getDayKey s)) <;> rfl

/-- C7: the claim says both start and end must fall inside the daily window on
the same calendar day, else `OutsideHours`.  With `startHour=9, endHour=18`
the two stated examples do behave as claimed (17:30+60 min rejected, 17:00+60
min accepted), but the general rule fails: `isWithinHours` compares only the
two minute-of-day values and never checks the day, so a 60-minute slot
starting 23:30 — whose start is after closing and whose end lies on the NEXT
day — passes the hours check (end minute-of-day 0:30 ≤ 18:00), and the whole
policy accepts it. -/
theorem hours_check_accepts_midnight_wrap :
    isWithinHours cfgNine wedLateNight (wedLateNight + 60 * 60 * 1000) = true
    ∧ specWithinWindow cfgNine wedLateNight (wedLateNight + 60 * 60 * 1000) = false
    ∧ cfgNine.endHour * 60 < getHours wedLateNight * 60 + getMinutes wedLateNight
    ∧ evaluatePolicy cfgNine wedMorning 60 "MERN" (some wedLateNight) = .accepted
    ∧ evaluatePolicy cfgNine wedMorning 60 "MERN" (some wedSeventeenThirty)
        = .rejected .outsideHours
    ∧ evaluatePolicy cfgNine wedMorning 60 "MERN" (some wedSeventeen) = .accepted := by
  decide

/-- C8: every booking the service persists satisfies `endAt = startAt +
durationMinutes` (in milliseconds) with the duration drawn from the allowed
set {15, 30, 45, 60}, and the admin update route — which sets only status,
adminNote and paymentStatus — never disturbs the interval fields: both
operations preserve the store-wide interval invariant. -/
theorem interval_invariant_preserved (cfg : BookingConfig) (env : EmailEnv) (now : Int)
    (req : BookingRequest) (store : List Booking) (id : Nat) (st : WorkStatus)
    (note : String) (ps : PayStatus)
    (h : ∀ b ∈ store, intervalInvariant b) :
    (∀ b ∈ (submit cfg env now req store).2, intervalInvariant b)
    ∧ (∀ b ∈ adminUpdateBooking store id st note ps, intervalInvariant b) := by
  constructor
  · cases hpc : preInsertCheck cfg now req store with
    | error r => rw [submit_snd_error cfg env now req store r hpc]; exact h
    | ok bk =>
      rw [submit_snd_ok cfg env now req store bk hpc]
      intro b hb
      rcases List.mem_append.mp hb with hb | hb
      · exact h b hb
      · simp only [List.mem_singleton] at hb
        subst hb
        obtain ⟨hend, hdur, -⟩ := preInsertCheck_ok_inv cfg now req store b hpc
        exact ⟨hend, hdur⟩
  · intro b hb
    unfold adminUpdateBooking at hb
    split at hb
    · exact h b hb
    · rename_i b0 hget
      rcases List.mem_or_eq_of_mem_set hb with hmem | heq
      · exact h b hmem
      · subst heq
        have hb0 := h b0 (List.get?_mem hget)
        exact ⟨hb0.1, hb0.2⟩

/-- Witness for C8: a fresh submission over a store holding one invariant-
respecting booking, and an admin update of that booking, both yield stores
whose every document satisfies the interval invariant. -/
theorem interval_invariant_preserved_witness :
    (∀ b ∈ (submit cfgDefault envNoSmtp wedMorning reqTenFortyFive [bookingTen]).2,
        intervalInvariant b)
    ∧ (∀ b ∈ adminUpdateBooking [bookingTen] 0 .doneB "paid in cash" .paid,
        intervalInvariant b) :=
  interval_invariant_preserved cfgDefault envNoSmtp wedMorning reqTenFortyFive [bookingTen]
    0 .doneB "paid in cash" .paid
    (by
      intro b hb
      simp only [List.mem_singleton] at hb
      subst hb
      exact ⟨by decide, by decide⟩)

/-- C9: conflict detection reads only the stored `startAt`/`endAt` fields.
Rewriting a document's status, adminNote and paymentStatus does not change the
conflict predicate on it; the admin update route leaves the store's answer to
any conflict probe unchanged; and the whole pre-insert check (hence the
conflict decision for any candidate) is identical on the updated store — a
completed or paid booking blocks overlapping slots exactly as a new one
does. -/
theorem conflict_check_ignores_admin_fields (cfg : BookingConfig) (now : Int)
    (req : BookingRequest) (store : List Booking) (id : Nat) (st : WorkStatus)
    (note : String) (ps : PayStatus) (sb eb : Int) (b : Booking) :
    overlapsBufferedProbe sb eb
        { b with status := st, adminNote := note, paymentStatus := ps }
      = overlapsBufferedProbe sb eb b
    ∧ (adminUpdateBooking store id st note ps).any (overlapsBufferedProbe sb eb)
      = store.any (overlapsBufferedProbe sb eb)
    ∧ preInsertCheck cfg now req (adminUpdateBooking store id st note ps)
      = preInsertCheck cfg now req store := by
  refine ⟨rfl, adminUpdate_any store id st note ps sb eb, ?_⟩
  unfold preInsertCheck
  simp only [adminUpdate_any]

/-- C10: the availability read depends only on the `startAt`/`endAt` fields of
the stored bookings — stores related pointwise by equal intervals produce
identical responses, and the successful response is exactly the list of
`(startAt, endAt)` pairs of the documents intersecting the requested range, so
no requester-identifying field can appear in it; a request with a missing
`from`/`to` or an unparseable date is answered with the 400 message without
consulting the store (the error branches hold for every store). -/
theorem availability_reads_only_intervals (fromQ toQ : Option (Option Int))
    (s1 s2 : List Booking)
    (h : List.Forall₂ (fun a b => a.startAt = b.startAt ∧ a.endAt = b.endAt) s1 s2) :
    availability fromQ toQ s1 = availability fromQ toQ s2
    ∧ ((fromQ = none ∨ toQ = none) →
        availability fromQ toQ s1 = .badRequest "from and to are required.")
    ∧ (∀ fp tp, fromQ = some fp → toQ = some tp → (fp = none ∨ tp = none) →
        availability fromQ toQ s1 = .badRequest "Invalid date range.")
    ∧ (∀ rs re, fromQ = some (some rs) → toQ = some (some re) →
        availability fromQ toQ s1
          = .ok ((s1.filter (fun b => decide (b.startAt < re) && decide (b.endAt > rs))).map
                (fun b => (b.startAt, b.endAt)))) := by
  refine ⟨?_, ?_, ?_, ?_⟩
  · unfold availability
    cases fromQ with
    | none => rfl
    | some fp =>
      cases toQ with
      | none => rfl
      | some tp =>
        cases fp with
        | none => rfl
        | some rs =>
          cases tp with
          | none => rfl
          | some re => simpa using filterMap_intervals_eq rs re s1 s2 h
  · intro hcase
    rcases hcase with h1 | h1 <;> subst h1
    · rfl
    · cases fromQ <;> rfl
  · intro fp tp hf ht hcase
    subst hf; subst ht
    rcases hcase with h1 | h1 <;> subst h1
    · rfl
    · cases fp <;> rfl
  · intro rs re hf ht
    subst hf; subst ht
    rfl

/-- Witness for C10: two one-booking stores that differ in every requester and
administrative field but share the interval produce identical availability
responses. -/
theorem availability_reads_only_intervals_witness :
    availability (some (some wedMorning)) (some (some (wedTen + 86400000))) [storedAnn]
      = availability (some (some wedMorning)) (some (some (wedTen + 86400000))) [storedBob] :=
  (availability_reads_only_intervals (some (some wedMorning))
    (some (some (wedTen + 86400000))) [storedAnn] [storedBob]
    (List.Forall₂.cons ⟨rfl, rfl⟩ List.Forall₂.nil)).1
